import Mathlib

/-!
Shallow embedding of the place-resolution core shared by the three
GoogleMapExporter scripts (`src/Python/geojson_to_gpx.py`,
`src/Python/saved_places_to_csv.py`, `src/Python/saved_places_to_html.py`).

JSON/Python values are modelled by the inductive `Value`; Python ints are
modelled by `Int` and Python floats by the exact decimal fractions
`Dfloat` (every float the scripts build or compare is given by a decimal
literal, so the decimal model is exact on these code paths, whereas real
Python floats are the nearest binary doubles).  Code that can raise a
Python exception returns `Except PyErr`.  Library builtins used by the
scripts (`float`, `str`, `dict.get`, `urllib.parse.urlparse`,
`urllib.parse.parse_qs`, `urllib.parse.unquote`, `str.strip`,
`html.escape`, the two regular expressions) are modelled explicitly below;
each model's doc comment records the simplifications made (ASCII-only
whitespace and digits, per-escape percent decoding, no `inf`/`nan`/underscore
float literals), none of which is exercised by the scripts on the inputs the
theorems below talk about.
-/

/-- Python exceptions that the modelled code can raise. -/
inductive PyErr where
  | valueError
  | typeError
  | attributeError
deriving DecidableEq, Repr

/-- Exact decimal number `mant / 10 ^ exp`, the model of a Python float in
these scripts.  The representation is not normalised; the code below only
ever passes such values through unchanged, compares them, or formats
them, so no normalisation is needed. -/
structure Dfloat where
  mant : Int
  exp : Nat
deriving DecidableEq, Repr

/-- Order comparison of two decimal fractions by cross multiplication. -/
def decLt (a b : Dfloat) : Bool :=
  a.mant * (10 : Int) ^ b.exp < b.mant * (10 : Int) ^ a.exp

/-- Absolute value of a decimal fraction (Python `abs`). -/
def decAbs (a : Dfloat) : Dfloat := ⟨|a.mant|, a.exp⟩

/-- JSON-like Python values as produced by `json.load`: `None`, booleans,
ints, floats (exact decimals), strings, lists and string-keyed dicts
(association lists; the inputs have no duplicate keys). -/
inductive Value where
  | noneV : Value
  | bool : Bool → Value
  | int : Int → Value
  | float : Dfloat → Value
  | str : String → Value
  | list : List Value → Value
  | dict : List (String × Value) → Value

/-- Lookup in a string-keyed association list, modelling Python dict lookup. -/
def alistGet : List (String × Value) → String → Option Value
  | [], _ => Option.none
  | (k, v) :: rest, key => if k = key then some v else alistGet rest key

/-- Python truthiness of a `Value` (`bool(v)`): `None`, `False`, `0`, `0.0`,
`""`, `[]` and the empty dict are falsy, everything else is truthy. -/
def truthy : Value → Bool
  | Value.noneV => false
  | Value.bool b => b
  | Value.int n => n != 0
  | Value.float q => q.mant != 0
  | Value.str s => !s.isEmpty
  | Value.list xs => !xs.isEmpty
  | Value.dict xs => !xs.isEmpty

/-- The Python expression `a or b`: `a` when `a` is truthy, otherwise `b`. -/
def pyOr (a b : Value) : Value := if truthy a then a else b

/-- Whether a value is a string equal to `s` (the Python comparison
`v == s` against a string literal: false for every non-string value). -/
def pyEqStr (v : Value) (s : String) : Bool :=
  match v with
  | Value.str t => t = s
  | _ => false

/-- Whether a value is Python `None` (the test `v is None`). -/
def isNoneV : Value → Bool
  | Value.noneV => true
  | _ => false

/-- The Python call `v.get(k, d)`: dict lookup with a default.  On any
non-dict receiver the call raises `AttributeError`, as in Python. -/
def pyGetDef (v : Value) (k : String) (d : Value) : Except PyErr Value :=
  match v with
  | Value.dict l => Except.ok ((alistGet l k).getD d)
  | _ => Except.error PyErr.attributeError

/-- The Python call `v.get(k)` (default `None`). -/
def Value.get (v : Value) (k : String) : Except PyErr Value :=
  pyGetDef v k Value.noneV

/-- The recurring idiom `props.get(k1) or props.get(k2)` with Python's
short-circuit `or`: the second lookup runs only when the first value is
falsy.  Raises `AttributeError` when `props` is not a dict. -/
def pyGetOr2 (props : Value) (k1 k2 : String) : Except PyErr Value :=
  match Value.get props k1 with
  | Except.error e => Except.error e
  | Except.ok v1 => if truthy v1 then Except.ok v1 else Value.get props k2

/-- Total variant of `v.get(k)` used at program points where the receiver
has already survived an earlier `.get` call and is therefore a dict. -/
def vGetD (v : Value) (k : String) : Value :=
  match v with
  | Value.dict l => (alistGet l k).getD Value.noneV
  | _ => Value.noneV

/-- Total variant of `props.get(k1) or props.get(k2)` (see `pyGetOr2`). -/
def vGetOr2 (props : Value) (k1 k2 : String) : Value :=
  pyOr (vGetD props k1) (vGetD props k2)

/-- Python iteration `for x in v`: lists yield their elements, strings
their characters (as one-character strings), dicts their keys; `None`,
booleans and numbers are not iterable and raise `TypeError`. -/
def pyIter : Value → Except PyErr (List Value)
  | Value.list xs => Except.ok xs
  | Value.str s => Except.ok (s.data.map (fun c => Value.str (String.mk [c])))
  | Value.dict l => Except.ok (l.map (fun kv => Value.str kv.1))
  | _ => Except.error PyErr.typeError

/-- ASCII whitespace as recognised by `str.strip` and the regex class
`\s` (the scripts never meet non-ASCII whitespace). -/
def isSpaceC (c : Char) : Bool :=
  c = ' ' || c = '\t' || c = '\n' || c = '\r' || c = '\x0b' || c = '\x0c'

/-- ASCII decimal digit, the regex class `\d` on the scripts' inputs. -/
def isDigitC (c : Char) : Bool := '0' ≤ c && c ≤ '9'

/-- Value of a hexadecimal digit, if any. -/
def hexVal (c : Char) : Option Nat :=
  if '0' ≤ c && c ≤ '9' then some (c.toNat - 48)
  else if 'a' ≤ c && c ≤ 'f' then some (c.toNat - 87)
  else if 'A' ≤ c && c ≤ 'F' then some (c.toNat - 55)
  else Option.none

/-- Decimal digit character for a value below ten. -/
def digC (n : Nat) : Char := Char.ofNat (48 + n)

/-- The Python call `s.strip()`: remove leading and trailing whitespace. -/
def stripChars (cs : List Char) : List Char :=
  ((cs.dropWhile isSpaceC).reverse.dropWhile isSpaceC).reverse

/-- Split at the first occurrence of `t`, returning the parts before and
after it, or nothing when `t` does not occur. -/
def splitFirst (t : Char) : List Char → Option (List Char × List Char)
  | [] => Option.none
  | c :: rest =>
    if c = t then some ([], rest)
    else (splitFirst t rest).map (fun p => (c :: p.1, p.2))

/-- Split on every occurrence of `'&'` (the `qs.split('&')` of
`urllib.parse.parse_qsl`). -/
def splitOnAmpAux (acc : List Char) : List Char → List (List Char)
  | [] => [acc.reverse]
  | c :: rest =>
    if c = '&' then acc.reverse :: splitOnAmpAux [] rest
    else splitOnAmpAux (c :: acc) rest

/-- Split a query string on `'&'`. -/
def splitOnAmp (cs : List Char) : List (List Char) := splitOnAmpAux [] cs

/-- The Python call `s.replace("+", " ")` for the one-character pattern. -/
def plusSpace (cs : List Char) : List Char :=
  cs.map (fun c => if c = '+' then ' ' else c)

/-- Decimal digits of a natural number (fuel-driven; `fuel ≥ n + 1` always
suffices, and callers pass `n + 1`). -/
def natDigits : Nat → Nat → List Char
  | 0, _ => []
  | fuel + 1, n => if n < 10 then [digC n] else natDigits fuel (n / 10) ++ [digC (n % 10)]

/-- Decimal rendering of a natural number (Python `str` on a non-negative int). -/
def natStr (n : Nat) : String := String.mk (natDigits (n + 1) n)

/-- Decimal rendering of an integer (Python `str` on an int). -/
def intStr (i : Int) : String :=
  if i < 0 then "-" ++ natStr i.natAbs else natStr i.natAbs

/-- Decimal digits of the fractional part `r / d`, stopping at the fuel
bound or when the remainder vanishes. -/
def fracDigitsAux : Nat → Nat → Nat → List Char
  | 0, _, _ => []
  | _ + 1, 0, _ => []
  | fuel + 1, r, d => digC (r * 10 / d) :: fracDigitsAux fuel (r * 10 % d) d

/-- Decimal rendering of a Python float, modelled on its exact decimal
value: integer part, a dot and the fractional expansion (17 digits at
most; real CPython prints the shortest round-tripping decimal of the
binary double, which agrees on every value these scripts format). -/
def floatReprChars (x : Dfloat) : List Char :=
  let sign : List Char := if x.mant < 0 then ['-'] else []
  let n := x.mant.natAbs
  let d := (10 : Nat) ^ x.exp
  let frac := if n % d = 0 then ['0'] else fracDigitsAux 17 (n % d) d
  sign ++ natDigits (n / d + 1) (n / d) ++ '.' :: frac

/-- Maximal run of ASCII digits: the digits and the rest. -/
def readDigits (cs : List Char) : List Char × List Char :=
  (cs.takeWhile isDigitC, cs.dropWhile isDigitC)

/-- Numeric value of a digit run, accumulated left to right. -/
def digitsVal (cs : List Char) : Nat :=
  cs.foldl (fun acc c => acc * 10 + (c.toNat - 48)) 0

/-- Value of a decimal mantissa `intDigits.fracDigits` as an exact decimal. -/
def mantissaVal (ip fp : List Char) : Dfloat :=
  ⟨(digitsVal ip * 10 ^ fp.length + digitsVal fp : Nat), fp.length⟩

/-- The Python builtin `float` applied to a string: optional surrounding
whitespace, optional sign, a decimal mantissa with optional fraction and
optional exponent.  (`inf`, `nan` and underscore separators are not
modelled; the scripts never produce such strings.)  Returns nothing when
the text does not parse, modelling the `ValueError`. -/
def pyParseFloat (cs0 : List Char) : Option Dfloat :=
  let cs := stripChars cs0
  let (neg, cs) :=
    match cs with
    | '-' :: r => (true, r)
    | '+' :: r => (false, r)
    | _ => (false, cs)
  let (ip, r1) := readDigits cs
  let (fp, r2) :=
    match r1 with
    | '.' :: r => readDigits r
    | _ => ([], r1)
  if ip.isEmpty && fp.isEmpty then Option.none
  else
    let m := mantissaVal ip fp
    let withExp : Option Dfloat :=
      match r2 with
      | [] => some m
      | e :: r3 =>
        if e = 'e' || e = 'E' then
          let (eneg, r4) :=
            match r3 with
            | '-' :: r => (true, r)
            | '+' :: r => (false, r)
            | _ => (false, r3)
          let (ed, r5) := readDigits r4
          if ed.isEmpty || !r5.isEmpty then Option.none
          else
            let ex := digitsVal ed
            some (if eneg then ⟨m.mant, m.exp + ex⟩ else ⟨m.mant * (10 : Int) ^ ex, m.exp⟩)
        else Option.none
    match withExp with
    | Option.none => Option.none
    | some v => some (if neg then ⟨-v.mant, v.exp⟩ else v)

/-- The Python builtin `float` on a value: ints, floats and bools convert,
parseable numeric strings parse, unparseable strings raise `ValueError`,
every other type raises `TypeError`. -/
def pyFloat : Value → Except PyErr Dfloat
  | Value.bool b => Except.ok (if b then ⟨1, 0⟩ else ⟨0, 0⟩)
  | Value.int n => Except.ok ⟨n, 0⟩
  | Value.float q => Except.ok q
  | Value.str s =>
    match pyParseFloat s.data with
    | some q => Except.ok q
    | Option.none => Except.error PyErr.valueError
  | _ => Except.error PyErr.typeError

/-- Left-pad a digit string with zeros to the given length. -/
def padLeftZeros (cs : List Char) (n : Nat) : List Char :=
  List.replicate (n - cs.length) '0' ++ cs

/-- The Python format expression `f"{x:.8f}"` on the exact decimal value
of the float: sign, integer part and exactly eight decimals, rounding the
ninth and further digits to nearest with ties to even (the rounding used
when Python formats a float with a fixed number of decimals). -/
def formatFixed8 (x : Dfloat) : String :=
  let neg := x.mant < 0
  let scaled := x.mant.natAbs * 100000000
  let d := (10 : Nat) ^ x.exp
  let lo := scaled / d
  let rem := scaled % d
  let m :=
    if 2 * rem < d then lo
    else if d < 2 * rem then lo + 1
    else if lo % 2 = 0 then lo else lo + 1
  let ip := m / 100000000
  let fp := m % 100000000
  (if neg then "-" else "") ++ natStr ip ++ "." ++
    String.mk (padLeftZeros (natDigits (fp + 1) fp) 8)

/-- The Python expression `sep.join(parts)`. -/
def joinSep (sep : String) : List String → String
  | [] => ""
  | [s] => s
  | s :: rest => s ++ sep ++ joinSep sep rest

mutual

/-- The Python builtin `repr` on JSON-like values (used by `str` on
containers).  String quoting is simplified to plain single quotes; the
scripts only ever apply `str` to scalars on realistic input. -/
def pyRepr : Value → String
  | Value.noneV => "None"
  | Value.bool b => if b then "True" else "False"
  | Value.int n => intStr n
  | Value.float q => String.mk (floatReprChars q)
  | Value.str s => "'" ++ s ++ "'"
  | Value.list xs => "[" ++ pyReprList xs ++ "]"
  | Value.dict xs => "\x7b" ++ pyReprDict xs ++ "\x7d"

/-- Comma-separated `repr` of list elements. -/
def pyReprList : List Value → String
  | [] => ""
  | [v] => pyRepr v
  | v :: rest => pyRepr v ++ ", " ++ pyReprList rest

/-- Comma-separated `repr` of dict items. -/
def pyReprDict : List (String × Value) → String
  | [] => ""
  | [(k, v)] => "'" ++ k ++ "': " ++ pyRepr v
  | (k, v) :: rest => "'" ++ k ++ "': " ++ pyRepr v ++ ", " ++ pyReprDict rest

end

/-- The Python builtin `str` on a value: the string itself for strings,
`repr`-style rendering otherwise (which is what `str` does for `None`,
booleans, numbers, lists and dicts). -/
def pyStr : Value → String
  | Value.str s => s
  | v => pyRepr v

/-- The percent-decoding of `urllib.parse.unquote`: each `%XX` escape with
two hex digits becomes the byte `XX` (ASCII bytes decode to their
character, non-ASCII bytes to U+FFFD, abstracting CPython's UTF-8 decode
with `errors="replace"`); malformed escapes are kept literally. -/
def unquoteChars : List Char → List Char
  | [] => []
  | '%' :: h1 :: h2 :: rest =>
    match hexVal h1, hexVal h2 with
    | some a, some b =>
      let n := a * 16 + b
      (if n ≤ 127 then Char.ofNat n else Char.ofNat 0xFFFD) :: unquoteChars rest
    | _, _ => '%' :: unquoteChars (h1 :: h2 :: rest)
  | '%' :: rest => '%' :: unquoteChars rest
  | c :: rest => c :: unquoteChars rest

/-- Characters allowed in a URL scheme (`urllib.parse.scheme_chars`). -/
def schemeCharB (c : Char) : Bool :=
  c.isAlpha || c.isDigit || c = '+' || c = '-' || c = '.'

/-- Delimiters ending the network-location part (`urllib.parse._splitnetloc`). -/
def netlocDelim (c : Char) : Bool := c = '/' || c = '?' || c = '#'

/-- The query component extracted by `urllib.parse.urlparse(url).query`,
following CPython's `urlsplit` (3.10 semantics): strip a leading
`scheme:` when the text before the first colon is a non-empty run of
scheme characters starting with an ASCII letter; after `//` take the
network location up to the first `/`, `?` or `#` and raise `ValueError`
when it contains an unmatched IPv6 bracket; drop a `#` fragment; the
query is what follows the first `?` of the remainder. -/
def urlsplitQuery (cs : List Char) : Except PyErr (List Char) :=
  let rest :=
    match splitFirst ':' cs with
    | some (before, after) =>
      if !before.isEmpty && before.all schemeCharB &&
          (match before with
           | c0 :: _ => c0.isAlpha
           | [] => false) then after
      else cs
    | Option.none => cs
  let step :=
    match rest with
    | '/' :: '/' :: r2 =>
      let netloc := r2.takeWhile (fun c => !netlocDelim c)
      if (netloc.contains '[' && !netloc.contains ']') ||
          (netloc.contains ']' && !netloc.contains '[') then
        Except.error PyErr.valueError
      else Except.ok (r2.dropWhile (fun c => !netlocDelim c))
    | _ => Except.ok rest
  match step with
  | Except.error e => Except.error e
  | Except.ok r3 =>
    let beforeFrag :=
      match splitFirst '#' r3 with
      | some (a, _) => a
      | Option.none => r3
    match splitFirst '?' beforeFrag with
    | some (_, q) => Except.ok q
    | Option.none => Except.ok []

/-- The name/value pairs of `urllib.parse.parse_qs` with its defaults:
split on `&`, skip empty chunks, skip chunks without `=` and chunks with
an empty value, replace `+` by space and percent-decode both name and
value. -/
def qsPairs (q : List Char) : List (List Char × List Char) :=
  (splitOnAmp q).filterMap (fun nv =>
    if nv.isEmpty then Option.none
    else
      match splitFirst '=' nv with
      | Option.none => Option.none
      | some (n, v) =>
        if v.isEmpty then Option.none
        else some (unquoteChars (plusSpace n), unquoteChars (plusSpace v)))

/-- First value listed for `key` in the parsed query string: the source's
`qs.get("q")` / `"q" in qs` guard followed by `qs["q"][0]` (the two
spellings used across the scripts are equivalent because `parse_qs`
never produces an empty value list). -/
def parseQsFirst (q : List Char) (key : List Char) : Option (List Char) :=
  (qsPairs q).findSome? (fun p => if p.1 = key then some p.2 else Option.none)

/-- Greedy scan of the regex fragment `-?\d+(?:\.\d+)?`: the matched text
and the rest.  Greedy matching without backtracking is exact for this
fragment because a shortened digit run would leave a digit where the
pattern next requires `.`, `,` or the end. -/
def scanNumber (cs : List Char) : Option (List Char × List Char) :=
  let (sgn, rest) :=
    match cs with
    | '-' :: r => (['-'], r)
    | _ => (([] : List Char), cs)
  let (ds, r1) := readDigits rest
  if ds.isEmpty then Option.none
  else
    match r1 with
    | '.' :: r2 =>
      let (fs, r3) := readDigits r2
      if fs.isEmpty then some (sgn ++ ds, r1)
      else some (sgn ++ ds ++ '.' :: fs, r3)
    | _ => some (sgn ++ ds, r1)

/-- Attempt of the tail `q=<num>,<num>` of the search pattern at one
position, returning the two captured numbers. -/
def tryQnums (cs : List Char) : Option (List Char × List Char) :=
  match cs with
  | 'q' :: '=' :: r =>
    (match scanNumber r with
     | some (n1, ',' :: r2) =>
       (match scanNumber r2 with
        | some (n2, _) => some (n1, n2)
        | Option.none => Option.none)
     | _ => Option.none)
  | _ => Option.none

/-- The call `re.search(r"[?&]q=(-?\d+(?:\.\d+)?),(-?\d+(?:\.\d+)?)", url)`:
leftmost position whose `?` or `&` starts a full match, with the two
captured number texts. -/
def searchQLatLon : List Char → Option (List Char × List Char)
  | [] => Option.none
  | c :: rest =>
    if c = '?' || c = '&' then
      match tryQnums rest with
      | some p => some p
      | Option.none => searchQLatLon rest
    else searchQLatLon rest

/-- The anchored match
`re.match(r"^\s*(-?\d+(?:\.\d+)?)\s*,\s*(-?\d+(?:\.\d+)?)\s*$", t)` with
its two captures (also used for the capture-free coordinate test in
`derive_name_from_url`, whose regex accepts exactly the same texts).
Both call sites apply it to stripped text, so the final `$` is plain
end-of-string here. -/
def matchFullLatLon (cs : List Char) : Option (List Char × List Char) :=
  match scanNumber (cs.dropWhile isSpaceC) with
  | Option.none => Option.none
  | some (n1, r1) =>
    match r1.dropWhile isSpaceC with
    | ',' :: r2 =>
      (match scanNumber (r2.dropWhile isSpaceC) with
       | Option.none => Option.none
       | some (n2, r3) =>
         if (r3.dropWhile isSpaceC).isEmpty then some (n1, n2) else Option.none)
    | _ => Option.none

/-- The placeholder threshold `1e-12` of the geometry branch (exact here;
the Python literal is the nearest binary double). -/
def eps : Dfloat := ⟨1, 12⟩

/-- The decoding `unquote(q_raw.replace("+", " ")).strip()` applied to the
raw `q` value in both the coordinate and the name parser. -/
def decodedQ (qraw : List Char) : List Char :=
  stripChars (unquoteChars (plusSpace qraw))

/-- Fallback half of `parse_latlon_from_url` (the `urlparse`/`parse_qs`
part, lines 29-47 of `geojson_to_gpx.py` and the same block of the other
two scripts): extract and decode the `q` parameter and accept it when it
is exactly `<number>,<number>`. -/
def parseLatlonFallback (cs : List Char) : Except PyErr (Option (Dfloat × Dfloat)) :=
  match urlsplitQuery cs with
  | Except.error e => Except.error e
  | Except.ok query =>
    match parseQsFirst query ['q'] with
    | Option.none => Except.ok Option.none
    | some qraw =>
      match matchFullLatLon (decodedQ qraw) with
      | some (a, b) =>
        (match pyParseFloat a, pyParseFloat b with
         | some la, some lo => Except.ok (some (la, lo))
         | _, _ => Except.ok Option.none)
      | Option.none => Except.ok Option.none

/-- The function `parse_latlon_from_url` (identical in all three scripts):
empty string fails at once; a regex search for `q=<lat>,<lon>` wins
immediately; otherwise fall back to query parsing.  The `try/except
ValueError` around the float conversions of the regex captures is the
fall-through in the first match. -/
def parse_latlon_from_url (url : String) : Except PyErr (Option (Dfloat × Dfloat)) :=
  let cs := url.data
  if cs.isEmpty then Except.ok Option.none
  else
    match searchQLatLon cs with
    | some (a, b) =>
      (match pyParseFloat a, pyParseFloat b with
       | some la, some lo => Except.ok (some (la, lo))
       | _, _ => parseLatlonFallback cs)
    | Option.none => parseLatlonFallback cs

/-- Whether stripped text starts with the two characters `m,` after
lowering (`q_text.lower().startswith("m,")`; only ASCII `M` lowers to `m`). -/
def startsWithMComma (cs : List Char) : Bool :=
  match cs with
  | c1 :: c2 :: _ => (c1 = 'm' || c1 = 'M') && c2 = ','
  | _ => false

/-- Final step of `derive_name_from_url`: the Python
`return q_text if q_text else None` / `return q_text or None`. -/
def nameFromQtext2 (q2 : List Char) : Except PyErr (Option String) :=
  if q2.isEmpty then Except.ok Option.none
  else Except.ok (some (String.mk q2))

/-- Core of `derive_name_from_url` on the decoded `q` text: reject pure
coordinates, strip a leading `m,` artifact and surrounding whitespace,
and return the text when non-empty. -/
def deriveFromQtext (qtext : List Char) : Except PyErr (Option String) :=
  if (matchFullLatLon qtext).isSome then Except.ok Option.none
  else nameFromQtext2 (if startsWithMComma qtext then stripChars (qtext.drop 2) else qtext)

/-- The function `derive_name_from_url` (identical in all three scripts):
decode the `q` parameter and run the name extraction on it. -/
def derive_name_from_url (url : String) : Except PyErr (Option String) :=
  match urlsplitQuery url.data with
  | Except.error e => Except.error e
  | Except.ok query =>
    match parseQsFirst query ['q'] with
    | Option.none => Except.ok Option.none
    | some qraw => deriveFromQtext (decodedQ qraw)

/-- Geometry branch of `extract_lat_lon` (step 1, lines 55-66 of
`geojson_to_gpx.py` and the identical blocks of the other scripts): a
`Point` dict with a list of at least two non-`None` coordinates converts
`[lon, lat]` through `float`, and an exact `(0, 0)` placeholder is
skipped.  `Except.ok Option.none` means control falls through to the URL
branch. -/
def geoStep (geom : Value) : Except PyErr (Option (Dfloat × Dfloat)) :=
  match geom with
  | Value.dict g =>
    if pyEqStr ((alistGet g "type").getD Value.noneV) "Point" then
      match (alistGet g "coordinates").getD Value.noneV with
      | Value.list (c0 :: c1 :: _) =>
        if isNoneV c0 || isNoneV c1 then Except.ok Option.none
        else
          (match pyFloat c0 with
           | Except.error e => Except.error e
           | Except.ok lon =>
             match pyFloat c1 with
             | Except.error e => Except.error e
             | Except.ok lat =>
               if decLt (decAbs lat) eps && decLt (decAbs lon) eps then
                 Except.ok Option.none
               else Except.ok (some (lat, lon)))
      | _ => Except.ok Option.none
    else Except.ok Option.none
  | _ => Except.ok Option.none

/-- URL branch of `extract_lat_lon` (step 2, lines 68-75): read the URL
from the two alternate keys, and accept the parsed pair when truthy (a
two-element tuple always is). -/
def urlStep (props : Value) : Except PyErr (Option (Dfloat × Dfloat)) :=
  match pyGetOr2 props "google_maps_url" "Google Maps URL" with
  | Except.error e => Except.error e
  | Except.ok (Value.str s) =>
    (match parse_latlon_from_url s with
     | Except.error e => Except.error e
     | Except.ok (some ll) => Except.ok (some ll)
     | Except.ok Option.none => Except.ok Option.none)
  | Except.ok _ => Except.ok Option.none

/-- The function `extract_lat_lon` (identical in all three scripts):
geometry first, URL fallback second, `None` when both fail. -/
def extract_lat_lon (feature : Value) : Except PyErr (Option (Dfloat × Dfloat)) :=
  match Value.get feature "geometry" with
  | Except.error e => Except.error e
  | Except.ok gv =>
    match Value.get feature "properties" with
    | Except.error e => Except.error e
    | Except.ok pv =>
      let geom := pyOr gv (Value.dict [])
      let props := pyOr pv (Value.dict [])
      match geoStep geom with
      | Except.error e => Except.error e
      | Except.ok (some ll) => Except.ok (some ll)
      | Except.ok Option.none => urlStep props

/-- Step 1 of the name resolution: `loc.get("name")` when `loc` is a dict
and the value is truthy, converted through `str`. -/
def locNameOpt (loc : Value) : Option String :=
  match loc with
  | Value.dict l =>
    if truthy ((alistGet l "name").getD Value.noneV) then
      some (pyStr ((alistGet l "name").getD Value.noneV))
    else Option.none
  | _ => Option.none

/-- Python falsiness of the `name_val` variable (`if not name_val:`):
`None` or the empty string. -/
def optFalsy : Option String → Bool
  | Option.none => true
  | some s => s.isEmpty

/-- Step 3 of the name resolution: first key among
`name, Name, title, Title, label, Label` that is present with a truthy
value (`if key in props and props[key]`), converted through `str`.  The
non-dict case cannot be reached: a truthy non-dict `props` already raised
at the earlier `props.get("location")` call. -/
def firstLabelAux (l : List (String × Value)) : List String → Option String
  | [] => Option.none
  | k :: ks =>
    match alistGet l k with
    | some v => if truthy v then some (pyStr v) else firstLabelAux l ks
    | Option.none => firstLabelAux l ks

/-- The step-3 label scan over the fixed key tuple. -/
def firstLabel (props : Value) : Option String :=
  match props with
  | Value.dict l => firstLabelAux l ["name", "Name", "title", "Title", "label", "Label"]
  | _ => Option.none

/-- Steps 3 and 4 of the name resolution on the value of `name_val` after
the URL stage: the label scan runs only when `name_val` is still falsy,
and the `f"Saved Place {idx}"` literal is the last resort. -/
def nameStep34 (props : Value) (nv1 : Option String) (idx : Nat) : String :=
  let nv2 :=
    if optFalsy nv1 then
      match firstLabel props with
      | some s => some s
      | Option.none => nv1
    else nv1
  if optFalsy nv2 then "Saved Place " ++ natStr idx else nv2.getD ""

/-- Name-resolution body shared verbatim (up to early-return style) by
`extract_name_and_desc` (gpx), `extract_name_and_notes` (csv) and
`extract_name` (html): four fallback stages guarded by `if not name_val:`
with the literal `f"Saved Place {idx}"` as last resort. -/
def resolveNameFromProps (props loc : Value) (idx : Nat) : Except PyErr String :=
  match (if optFalsy (locNameOpt loc) then
      match pyGetOr2 props "google_maps_url" "Google Maps URL" with
      | Except.error e => Except.error e
      | Except.ok (Value.str s) =>
        (match derive_name_from_url s with
         | Except.error e => Except.error e
         | Except.ok (some n) => Except.ok (if n.isEmpty then locNameOpt loc else some n)
         | Except.ok Option.none => Except.ok (locNameOpt loc))
      | Except.ok _ => Except.ok (locNameOpt loc)
    else Except.ok (locNameOpt loc)) with
  | Except.error e => Except.error e
  | Except.ok nv1 => Except.ok (nameStep34 props nv1 idx)

/-- The html script's `extract_name`: read `properties` and `location`
(with the `or {}` defaults) and run the shared name resolution. -/
def extract_name (feature : Value) (idx : Nat) : Except PyErr String :=
  match Value.get feature "properties" with
  | Except.error e => Except.error e
  | Except.ok pv =>
    match Value.get (pyOr pv (Value.dict [])) "location" with
    | Except.error e => Except.error e
    | Except.ok lv =>
      resolveNameFromProps (pyOr pv (Value.dict [])) (pyOr lv (Value.dict [])) idx

/-- The `Saved: <date>` part (`if props.get("date"): ...`). -/
def datePart (props : Value) : List String :=
  if truthy (vGetD props "date") then ["Saved: " ++ pyStr (vGetD props "date")] else []

/-- The `Address: <address>` part
(`if isinstance(loc, dict) and loc.get("address"): ...`). -/
def addressPart (loc : Value) : List String :=
  match loc with
  | Value.dict l =>
    if truthy ((alistGet l "address").getD Value.noneV) then
      ["Address: " ++ pyStr ((alistGet l "address").getD Value.noneV)]
    else []
  | _ => []

/-- The `Google Maps: <url>` part of the gpx variant
(`if isinstance(url, str): ...` on the two-key url lookup). -/
def gmapsPart (props : Value) : List String :=
  match vGetOr2 props "google_maps_url" "Google Maps URL" with
  | Value.str s => ["Google Maps: " ++ s]
  | _ => []

/-- The bare comment part (`comment = props.get("Comment") or
props.get("comment"); if comment: ...`). -/
def commentPart (props : Value) : List String :=
  let c := vGetOr2 props "Comment" "comment"
  if truthy c then [pyStr c] else []

/-- Notes composition of the csv variant (lines 144-155 of
`saved_places_to_csv.py`): date, address and comment joined by `" | "`.
Total because it runs only after `props` survived `props.get("location")`. -/
def notesOfProps (props loc : Value) : String :=
  joinSep " | " (datePart props ++ addressPart loc ++ commentPart props)

/-- Description composition of the gpx variant (lines 132-147 of
`geojson_to_gpx.py`): date, address, the `Google Maps: <url>` part and
the comment joined by `" | "`. -/
def descOfProps (props loc : Value) : String :=
  joinSep " | " (datePart props ++ addressPart loc ++ gmapsPart props ++ commentPart props)

/-- The csv script's `extract_name_and_notes`. -/
def extract_name_and_notes (feature : Value) (idx : Nat) : Except PyErr (String × String) :=
  match Value.get feature "properties" with
  | Except.error e => Except.error e
  | Except.ok pv =>
    match Value.get (pyOr pv (Value.dict [])) "location" with
    | Except.error e => Except.error e
    | Except.ok lv =>
      match resolveNameFromProps (pyOr pv (Value.dict [])) (pyOr lv (Value.dict [])) idx with
      | Except.error e => Except.error e
      | Except.ok name =>
        Except.ok (name, notesOfProps (pyOr pv (Value.dict [])) (pyOr lv (Value.dict [])))

/-- The gpx script's `extract_name_and_desc`. -/
def extract_name_and_desc (feature : Value) (idx : Nat) : Except PyErr (String × String) :=
  match Value.get feature "properties" with
  | Except.error e => Except.error e
  | Except.ok pv =>
    match Value.get (pyOr pv (Value.dict [])) "location" with
    | Except.error e => Except.error e
    | Except.ok lv =>
      match resolveNameFromProps (pyOr pv (Value.dict [])) (pyOr lv (Value.dict [])) idx with
      | Except.error e => Except.error e
      | Except.ok name =>
        Except.ok (name, descOfProps (pyOr pv (Value.dict [])) (pyOr lv (Value.dict [])))

/-- One output row of `json_to_rows` in `saved_places_to_csv.py`.  The
`url` field keeps its Python value: the dict literal stores whatever the
`or` chain produced. -/
structure CsvRow where
  name : String
  latitude : String
  longitude : String
  url : Value
  notes : String

/-- Row construction of the csv loop body after coordinates resolved
(lines 169-182): re-read `properties`, build the url with the trailing
`or ""`, resolve name and notes, and format the coordinates to eight
decimals. -/
def csvRowOf (f : Value) (i : Nat) (lat lon : Dfloat) : Except PyErr CsvRow :=
  match Value.get f "properties" with
  | Except.error e => Except.error e
  | Except.ok pv =>
    match pyGetOr2 (pyOr pv (Value.dict [])) "google_maps_url" "Google Maps URL" with
    | Except.error e => Except.error e
    | Except.ok u =>
      match extract_name_and_notes f i with
      | Except.error e => Except.error e
      | Except.ok nn =>
        Except.ok ⟨nn.1, formatFixed8 lat, formatFixed8 lon, pyOr u (Value.str ""), nn.2⟩

/-- Loop of `json_to_rows` over the feature list with the 1-based
`enumerate` counter: unresolvable features are skipped silently. -/
def json_to_rows_aux (i : Nat) : List Value → Except PyErr (List CsvRow)
  | [] => Except.ok []
  | f :: rest =>
    match extract_lat_lon f with
    | Except.error e => Except.error e
    | Except.ok Option.none => json_to_rows_aux (i + 1) rest
    | Except.ok (some ll) =>
      match csvRowOf f i ll.1 ll.2 with
      | Except.error e => Except.error e
      | Except.ok row =>
        match json_to_rows_aux (i + 1) rest with
        | Except.error e => Except.error e
        | Except.ok rs => Except.ok (row :: rs)

/-- The csv script's `json_to_rows`: `data.get("features") or []`,
iterate, resolve, skip, collect. -/
def json_to_rows (data : Value) : Except PyErr (List CsvRow) :=
  match Value.get data "features" with
  | Except.error e => Except.error e
  | Except.ok fv =>
    match pyIter (pyOr fv (Value.list [])) with
    | Except.error e => Except.error e
    | Except.ok fs => json_to_rows_aux 1 fs

/-- One output entry of `json_to_entries` in `saved_places_to_html.py`.
The `date` and `gmaps_url` fields keep their Python values. -/
structure HtmlEntry where
  name : String
  lat : String
  lon : String
  date : Value
  gmaps_url : Value

/-- Entry construction of the html loop body after coordinates resolved
(lines 130-144): name first, then `props.get("date", "")` and the url
with the trailing `or ""`. -/
def htmlEntryOf (f : Value) (i : Nat) (lat lon : Dfloat) : Except PyErr HtmlEntry :=
  match extract_name f i with
  | Except.error e => Except.error e
  | Except.ok name =>
    match Value.get f "properties" with
    | Except.error e => Except.error e
    | Except.ok pv =>
      match pyGetDef (pyOr pv (Value.dict [])) "date" (Value.str "") with
      | Except.error e => Except.error e
      | Except.ok date =>
        match pyGetOr2 (pyOr pv (Value.dict [])) "google_maps_url" "Google Maps URL" with
        | Except.error e => Except.error e
        | Except.ok u =>
          Except.ok ⟨name, formatFixed8 lat, formatFixed8 lon, date, pyOr u (Value.str "")⟩

/-- Loop of `json_to_entries` with the 1-based counter. -/
def json_to_entries_aux (i : Nat) : List Value → Except PyErr (List HtmlEntry)
  | [] => Except.ok []
  | f :: rest =>
    match extract_lat_lon f with
    | Except.error e => Except.error e
    | Except.ok Option.none => json_to_entries_aux (i + 1) rest
    | Except.ok (some ll) =>
      match htmlEntryOf f i ll.1 ll.2 with
      | Except.error e => Except.error e
      | Except.ok entry =>
        match json_to_entries_aux (i + 1) rest with
        | Except.error e => Except.error e
        | Except.ok es => Except.ok (entry :: es)

/-- The html script's `json_to_entries`. -/
def json_to_entries (data : Value) : Except PyErr (List HtmlEntry) :=
  match Value.get data "features" with
  | Except.error e => Except.error e
  | Except.ok fv =>
    match pyIter (pyOr fv (Value.list [])) with
    | Except.error e => Except.error e
    | Except.ok fs => json_to_entries_aux 1 fs

/-- The call `html.escape(s, quote=True)`: `&`, `<`, `>`, `"` and `'`
replaced by their entities. -/
def htmlEscapeChar (c : Char) : List Char :=
  if c = '&' then "&amp;".data
  else if c = '<' then "&lt;".data
  else if c = '>' then "&gt;".data
  else if c = '"' then "&quot;".data
  else if c = '\'' then "&#x27;".data
  else [c]

/-- Escape a whole string for XML/HTML text content. -/
def htmlEscape (s : String) : String :=
  String.mk (s.data.foldr (fun c acc => htmlEscapeChar c ++ acc) [])

/-- The gpx script's `feature_to_wpt`: empty string for unresolvable
features, otherwise the `<wpt>` element with escaped name and optional
description. -/
def feature_to_wpt (feature : Value) (idx : Nat) : Except PyErr String :=
  match extract_lat_lon feature with
  | Except.error e => Except.error e
  | Except.ok Option.none => Except.ok ""
  | Except.ok (some ll) =>
    match extract_name_and_desc feature idx with
    | Except.error e => Except.error e
    | Except.ok nd =>
      let nameXml := htmlEscape nd.1
      let descXml := htmlEscape nd.2
      let out :=
        ["  <wpt lat=\"" ++ formatFixed8 ll.1 ++ "\" lon=\"" ++ formatFixed8 ll.2 ++ "\">",
         "    <name>" ++ nameXml ++ "</name>"]
      let out := out ++ (if !descXml.isEmpty then ["    <desc>" ++ descXml ++ "</desc>"] else [])
      Except.ok (joinSep "\n" (out ++ ["  </wpt>"]))

/-- The two header lines preceding the waypoints in the gpx output. -/
def gpxHeaderLines : List String :=
  ["<?xml version=\"1.0\" encoding=\"UTF-8\"?>",
   "<gpx version=\"1.1\" creator=\"google-saved-to-gpx\" " ++
     "xmlns=\"http://www.topografix.com/GPX/1/1\" " ++
     "xmlns:xsi=\"http://www.w3.org/2001/XMLSchema-instance\" " ++
     "xsi:schemaLocation=\"http://www.topografix.com/GPX/1/1 " ++
     "http://www.topografix.com/GPX/1/1/gpx.xsd\">"]

/-- Assembly of the gpx document from the collected waypoint strings. -/
def gpxDocOf (wpts : List String) : String :=
  joinSep "\n" (gpxHeaderLines ++ wpts ++ ["</gpx>"])

/-- Loop of `json_to_gpx` with the 1-based counter and the `if w:` filter. -/
def json_to_gpx_aux (i : Nat) : List Value → Except PyErr (List String)
  | [] => Except.ok []
  | f :: rest =>
    match feature_to_wpt f i with
    | Except.error e => Except.error e
    | Except.ok w =>
      match json_to_gpx_aux (i + 1) rest with
      | Except.error e => Except.error e
      | Except.ok ws => Except.ok (if !w.isEmpty then w :: ws else ws)

/-- The gpx script's `json_to_gpx`. -/
def json_to_gpx (data : Value) : Except PyErr String :=
  match Value.get data "features" with
  | Except.error e => Except.error e
  | Except.ok fv =>
    match pyIter (pyOr fv (Value.list [])) with
    | Except.error e => Except.error e
    | Except.ok fs =>
      match json_to_gpx_aux 1 fs with
      | Except.error e => Except.error e
      | Except.ok wpts => Except.ok (gpxDocOf wpts)

/-- Modelled from the spec (§4.4, annotation-free part): the alternate-key
priority rule of the implicit claim — the first spelling's value when it
is present and truthy, otherwise the second spelling's value (or `None`). -/
def specAltKey (l : List (String × Value)) (k1 k2 : String) : Value :=
  match alistGet l k1 with
  | some v => if truthy v then v else (alistGet l k2).getD Value.noneV
  | Option.none => (alistGet l k2).getD Value.noneV

/-- Modelled from the spec (§4.4 step 2): the URL-derived name, tried on
the record's map-service URL when that URL is a string (step inapplicable
otherwise). -/
def specUrlName (props : Value) : Except PyErr (Option String) :=
  match pyGetOr2 props "google_maps_url" "Google Maps URL" with
  | Except.error e => Except.error e
  | Except.ok (Value.str s) => derive_name_from_url s
  | Except.ok _ => Except.ok Option.none

/-- Modelled from the spec (§4.4 step 3): one plain name/title/label key,
yielding its value as a string when present and non-empty (truthy). -/
def labelTry (props : Value) (k : String) : Option String :=
  match props with
  | Value.dict l =>
    (match alistGet l k with
     | some v => if truthy v then some (pyStr v) else Option.none
     | Option.none => Option.none)
  | _ => Option.none

/-- Modelled from the spec (§4.4 step 3): the first success among the six
alternate spellings, in their fixed order. -/
def specLabelName (props : Value) : Option String :=
  ["name", "Name", "title", "Title", "label", "Label"].foldr
    (fun k acc => (labelTry props k).orElse (fun _ => acc)) Option.none

/-- Modelled from the spec (§4.4): the name fallback chain as an ordered
sequence of independent try-steps, each evaluated only when every earlier
step failed, with the `"Saved Place " + ordinal` literal as last resort. -/
def specChainCore (props loc : Value) (idx : Nat) : Except PyErr String :=
  match locNameOpt loc with
  | some n => Except.ok n
  | Option.none =>
    match specUrlName props with
    | Except.error e => Except.error e
    | Except.ok (some n) => Except.ok n
    | Except.ok Option.none =>
      match specLabelName props with
      | some n => Except.ok n
      | Option.none => Except.ok ("Saved Place " ++ natStr idx)

/-- Modelled from the spec (§4.4): the whole name resolver on one feature,
reading `properties` and `location` the way every variant does. -/
def specResolveName (feature : Value) (idx : Nat) : Except PyErr String :=
  match Value.get feature "properties" with
  | Except.error e => Except.error e
  | Except.ok pv =>
    match Value.get (pyOr pv (Value.dict [])) "location" with
    | Except.error e => Except.error e
    | Except.ok lv =>
      specChainCore (pyOr pv (Value.dict [])) (pyOr lv (Value.dict [])) idx

theorem natDigits_ne_nil (fuel n : Nat) (h : fuel ≠ 0) : natDigits fuel n ≠ [] := by
  cases fuel with
  | zero => exact absurd rfl h
  | succ f =>
    simp only [natDigits]
    split <;> simp

theorem ne_empty_of_data (s : String) (h : s.data ≠ []) : s ≠ "" := by
  intro he
  exact h (by rw [he])

theorem natStr_ne_empty (n : Nat) : natStr n ≠ "" :=
  ne_empty_of_data _ (natDigits_ne_nil (n + 1) n (Nat.succ_ne_zero n))

theorem pyStr_ne_empty (v : Value) (h : truthy v = true) : pyStr v ≠ "" := by
  cases v with
  | noneV => simp [truthy] at h
  | bool b =>
    cases b with
    | false => simp [truthy] at h
    | true => simp [pyStr, pyRepr]
  | int n =>
    apply ne_empty_of_data
    simp only [pyStr, pyRepr, intStr]
    split
    · simp [String.data_append]
    · exact natDigits_ne_nil _ _ (Nat.succ_ne_zero _)
  | float q =>
    apply ne_empty_of_data
    simp [pyStr, pyRepr, floatReprChars]
  | str s =>
    simp only [truthy, Bool.not_eq_true'] at h
    simp only [pyStr]
    intro he
    rw [he] at h
    exact absurd h (by decide)
  | list xs =>
    apply ne_empty_of_data
    simp [pyStr, pyRepr, String.data_append]
  | dict xs =>
    apply ne_empty_of_data
    simp [pyStr, pyRepr, String.data_append]


theorem nameFromQtext2_no_empty (q2 : List Char) :
    nameFromQtext2 q2 ≠ Except.ok (some "") := by
  unfold nameFromQtext2
  split
  · simp
  · rename_i h
    intro he
    simp only [Except.ok.injEq, Option.some.injEq] at he
    have hq : q2 = [] := congrArg String.data he
    rw [hq] at h
    exact h rfl

theorem deriveFromQtext_no_empty (qtext : List Char) :
    deriveFromQtext qtext ≠ Except.ok (some "") := by
  unfold deriveFromQtext
  split
  · simp
  · exact nameFromQtext2_no_empty _

theorem derive_no_empty (s : String) : derive_name_from_url s ≠ Except.ok (some "") := by
  unfold derive_name_from_url
  split
  · simp
  · split
    · simp
    · exact deriveFromQtext_no_empty _

theorem locNameOpt_ne_empty (loc : Value) (n : String) (h : locNameOpt loc = some n) :
    n ≠ "" := by
  unfold locNameOpt at h
  split at h
  · split at h
    · rename_i ht
      simp only [Option.some.injEq] at h
      exact h ▸ pyStr_ne_empty _ ht
    · exact absurd h (by simp)
  · exact absurd h (by simp)

theorem firstLabelAux_ne_empty (ks : List String) (l : List (String × Value)) (s : String)
    (h : firstLabelAux l ks = some s) : s ≠ "" := by
  induction ks with
  | nil => exact absurd h (by simp [firstLabelAux])
  | cons k ks ih =>
    unfold firstLabelAux at h
    split at h
    · split at h
      · rename_i ht
        simp only [Option.some.injEq] at h
        exact h ▸ pyStr_ne_empty _ ht
      · exact ih h
    · exact ih h

theorem firstLabel_ne_empty (props : Value) (s : String) (h : firstLabel props = some s) :
    s ≠ "" := by
  unfold firstLabel at h
  split at h
  · exact firstLabelAux_ne_empty _ _ _ h
  · exact absurd h (by simp)

theorem firstLabelAux_eq_foldr (ks : List String) (l : List (String × Value)) :
    firstLabelAux l ks =
      ks.foldr (fun k acc => (labelTry (Value.dict l) k).orElse (fun _ => acc)) Option.none := by
  induction ks with
  | nil => simp [firstLabelAux]
  | cons k ks ih =>
    simp only [firstLabelAux, List.foldr, labelTry, ih]
    split
    · split <;> simp [Option.orElse]
    · simp [Option.orElse]

theorem firstLabel_eq_spec (props : Value) : firstLabel props = specLabelName props := by
  cases props with
  | dict l => exact firstLabelAux_eq_foldr ["name", "Name", "title", "Title", "label", "Label"] l
  | noneV => rfl
  | bool b => rfl
  | int n => rfl
  | float q => rfl
  | str s => rfl
  | list xs => rfl

theorem pyGetOr2_dict (l : List (String × Value)) (k1 k2 : String) :
    pyGetOr2 (Value.dict l) k1 k2 = Except.ok (vGetOr2 (Value.dict l) k1 k2) := by
  simp only [pyGetOr2, Value.get, pyGetDef, vGetOr2, vGetD, pyOr]
  split <;> rfl

theorem isEmpty_false_of_ne (s : String) (h : s ≠ "") : s.isEmpty = false := by
  cases he : s.isEmpty
  · rfl
  · exact absurd ((String.isEmpty_iff s).mp he) h

theorem nameStep34_some (props : Value) (idx : Nat) (s : String) (h : s.isEmpty = false) :
    nameStep34 props (some s) idx = s := by
  unfold nameStep34
  simp [optFalsy, h]

theorem nameStep34_none (props : Value) (idx : Nat) :
    nameStep34 props Option.none idx =
      (match firstLabel props with
       | some s => s
       | Option.none => "Saved Place " ++ natStr idx) := by
  unfold nameStep34
  cases hf : firstLabel props with
  | some s =>
    have hs := isEmpty_false_of_ne s (firstLabel_ne_empty props s hf)
    simp [optFalsy, hf, hs]
  | none => simp [optFalsy, hf]

theorem resolveName_eq_spec (props loc : Value) (idx : Nat) :
    resolveNameFromProps props loc idx = specChainCore props loc idx := by
  unfold resolveNameFromProps specChainCore specUrlName
  cases hl : locNameOpt loc with
  | some n =>
    have hn := isEmpty_false_of_ne n (locNameOpt_ne_empty loc n hl)
    simp [optFalsy, hn, nameStep34_some props idx n hn]
  | none =>
    have h3 : (Except.ok (nameStep34 props Option.none idx) : Except PyErr String) =
        (match specLabelName props with
         | some m => Except.ok m
         | Option.none => Except.ok ("Saved Place " ++ natStr idx)) := by
      rw [nameStep34_none, ← firstLabel_eq_spec]
      cases firstLabel props <;> simp
    cases hu : pyGetOr2 props "google_maps_url" "Google Maps URL" with
    | error e => simp [optFalsy]
    | ok v =>
      cases v with
      | str s =>
        cases hd : derive_name_from_url s with
        | error e => simp [optFalsy, hd]
        | ok no =>
          cases no with
          | some n =>
            have hn := isEmpty_false_of_ne n (fun he => derive_no_empty s (he ▸ hd))
            simp [optFalsy, hd, hn, nameStep34_some props idx n hn]
          | none =>
            simp only [optFalsy, hd]
            exact h3
      | noneV => exact h3
      | bool b => exact h3
      | int n => exact h3
      | float q => exact h3
      | list xs => exact h3
      | dict xs => exact h3

/-- A numeric JSON value (an int or a float) and its value as a decimal,
the reading under which the claims speak of "numeric elements". -/
def pyNumD : Value → Option Dfloat
  | Value.int n => some ⟨n, 0⟩
  | Value.float q => some q
  | _ => Option.none

theorem pyNumD_not_none (v : Value) (q : Dfloat) (h : pyNumD v = some q) :
    isNoneV v = false := by
  cases v <;> simp [pyNumD] at h <;> rfl

theorem pyNumD_float (v : Value) (q : Dfloat) (h : pyNumD v = some q) :
    pyFloat v = Except.ok q := by
  cases v <;> simp [pyNumD] at h <;> simp [pyFloat, h]

theorem geoStep_point (g : List (String × Value)) (cs : List Value) (v0 v1 : Value)
    (q0 q1 : Dfloat)
    (ht : alistGet g "type" = some (Value.str "Point"))
    (hc : alistGet g "coordinates" = some (Value.list (v0 :: v1 :: cs)))
    (h0 : pyNumD v0 = some q0)
    (h1 : pyNumD v1 = some q1) :
    geoStep (Value.dict g) =
      (if decLt (decAbs q1) eps && decLt (decAbs q0) eps then Except.ok Option.none
       else Except.ok (some (q1, q0))) := by
  have hpt : pyEqStr (Value.str "Point") "Point" = true := rfl
  unfold geoStep
  simp only [ht, hc, Option.getD_some, hpt, if_true, pyNumD_not_none v0 q0 h0,
    pyNumD_not_none v1 q1 h1, pyNumD_float v0 q0 h0, pyNumD_float v1 q1 h1,
    Bool.or_self, Bool.false_or, if_false, Bool.false_eq_true]

theorem extract_lat_lon_dict (f : List (String × Value)) :
    extract_lat_lon (Value.dict f) =
      (match geoStep (pyOr ((alistGet f "geometry").getD Value.noneV) (Value.dict [])) with
       | Except.error e => Except.error e
       | Except.ok (some ll) => Except.ok (some ll)
       | Except.ok Option.none =>
         urlStep (pyOr ((alistGet f "properties").getD Value.noneV) (Value.dict []))) := rfl

theorem pyOr_dict_ne_nil (g : List (String × Value)) (d : Value) (h : g ≠ []) :
    pyOr (Value.dict g) d = Value.dict g := by
  cases g with
  | nil => exact absurd rfl h
  | cons a as => rfl

theorem alistGet_ne_nil (g : List (String × Value)) (k : String) (v : Value)
    (h : alistGet g k = some v) : g ≠ [] := by
  intro he
  rw [he] at h
  exact absurd h (by simp [alistGet])

/-- Claim C2 (code_bug evidence): for a Point feature whose first
coordinate is the unparseable string `"abc"` (second element a number)
and whose `google_maps_url` would resolve to `(1, 2)`, `extract_lat_lon`
raises `ValueError` at `float(coords[0])` instead of degrading to the URL
fallback; the second conjunct shows the fallback would have succeeded. -/
theorem c2_wrong_type_coord_raises :
    extract_lat_lon (Value.dict [("geometry", Value.dict [("type", Value.str "Point"),
        ("coordinates", Value.list [Value.str "abc", Value.float ⟨1, 0⟩])]),
      ("properties", Value.dict [("google_maps_url",
        Value.str "http://maps.google.com/?q=1,2")])]) = Except.error PyErr.valueError ∧
    parse_latlon_from_url "http://maps.google.com/?q=1,2" =
      Except.ok (some (⟨1, 0⟩, ⟨2, 0⟩)) :=
  ⟨rfl, rfl⟩

/-- Claim C3 (code_bug evidence): on the malformed URL `"http://["` the
coordinate parser raises `ValueError` from `urlparse` (invalid IPv6
bracket in the authority) instead of returning the "not found" result,
and the error propagates out of `extract_lat_lon`. -/
theorem c3_url_parser_raises_on_bad_ipv6 :
    parse_latlon_from_url "http://[" = Except.error PyErr.valueError ∧
    extract_lat_lon (Value.dict [("properties", Value.dict [("google_maps_url",
      Value.str "http://[")])]) = Except.error PyErr.valueError :=
  ⟨rfl, rfl⟩

/-- Claim C4: for a feature whose geometry is a `Point` with at least two
non-null numeric coordinates that are not both within `1e-12` of zero,
the resolver returns latitude `coordinates[1]` and longitude
`coordinates[0]` exactly (GeoJSON axis order swapped). -/
theorem c4_point_axis_swap (f g : List (String × Value)) (cs : List Value)
    (v0 v1 : Value) (q0 q1 : Dfloat)
    (hg : alistGet f "geometry" = some (Value.dict g))
    (ht : alistGet g "type" = some (Value.str "Point"))
    (hc : alistGet g "coordinates" = some (Value.list (v0 :: v1 :: cs)))
    (h0 : pyNumD v0 = some q0)
    (h1 : pyNumD v1 = some q1)
    (hnz : ¬(decLt (decAbs q1) eps = true ∧ decLt (decAbs q0) eps = true)) :
    extract_lat_lon (Value.dict f) = Except.ok (some (q1, q0)) := by
  have hC : (decLt (decAbs q1) eps && decLt (decAbs q0) eps) = false := by
    cases hb : (decLt (decAbs q1) eps && decLt (decAbs q0) eps)
    · rfl
    · exact absurd (by simpa using hb) hnz
  rw [extract_lat_lon_dict, hg, Option.getD_some,
    pyOr_dict_ne_nil g _ (alistGet_ne_nil g "type" _ ht),
    geoStep_point g cs v0 v1 q0 q1 ht hc h0 h1, hC]
  rfl

/-- Witness for C4 at the concrete feature with coordinates `[3, 4]`. -/
theorem c4_point_axis_swap_witness :
    pyNumD (Value.int 3) = some ⟨3, 0⟩ ∧
    ¬(decLt (decAbs ⟨4, 0⟩) eps = true ∧ decLt (decAbs ⟨3, 0⟩) eps = true) ∧
    extract_lat_lon (Value.dict [("geometry", Value.dict [("type", Value.str "Point"),
        ("coordinates", Value.list [Value.int 3, Value.int 4])])]) =
      Except.ok (some (⟨4, 0⟩, ⟨3, 0⟩)) :=
  ⟨rfl, by decide,
   c4_point_axis_swap [("geometry", Value.dict [("type", Value.str "Point"),
       ("coordinates", Value.list [Value.int 3, Value.int 4])])]
     [("type", Value.str "Point"), ("coordinates", Value.list [Value.int 3, Value.int 4])]
     [] (Value.int 3) (Value.int 4) ⟨3, 0⟩ ⟨4, 0⟩ rfl rfl rfl rfl rfl (by decide)⟩

/-- Claim C5: for a feature whose geometry is a `Point` with two numeric
coordinates both within `1e-12` of zero, the resolver skips the geometry
placeholder and behaves exactly as its URL step on the feature's
properties, so it yields "no coordinates" precisely when the URL source
fails too. -/
theorem c5_zero_placeholder_falls_through (f g : List (String × Value)) (cs : List Value)
    (v0 v1 : Value) (q0 q1 : Dfloat)
    (hg : alistGet f "geometry" = some (Value.dict g))
    (ht : alistGet g "type" = some (Value.str "Point"))
    (hc : alistGet g "coordinates" = some (Value.list (v0 :: v1 :: cs)))
    (h0 : pyNumD v0 = some q0)
    (h1 : pyNumD v1 = some q1)
    (hz1 : decLt (decAbs q1) eps = true)
    (hz0 : decLt (decAbs q0) eps = true) :
    extract_lat_lon (Value.dict f) =
      urlStep (pyOr ((alistGet f "properties").getD Value.noneV) (Value.dict [])) ∧
    (extract_lat_lon (Value.dict f) = Except.ok Option.none ↔
      urlStep (pyOr ((alistGet f "properties").getD Value.noneV) (Value.dict [])) =
        Except.ok Option.none) := by
  have heq : extract_lat_lon (Value.dict f) =
      urlStep (pyOr ((alistGet f "properties").getD Value.noneV) (Value.dict [])) := by
    rw [extract_lat_lon_dict, hg, Option.getD_some,
      pyOr_dict_ne_nil g _ (alistGet_ne_nil g "type" _ ht),
      geoStep_point g cs v0 v1 q0 q1 ht hc h0 h1, hz1, hz0]
    rfl
  exact ⟨heq, by rw [heq]⟩


/-- Witness for C5 at a concrete `(0.0, 0.0)` placeholder feature whose
URL holds `?q=7.5,8.25`. -/
theorem c5_zero_placeholder_falls_through_witness :
    decLt (decAbs ⟨0, 1⟩) eps = true ∧
    (extract_lat_lon (Value.dict [("geometry", Value.dict [("type", Value.str "Point"),
        ("coordinates", Value.list [Value.float ⟨0, 1⟩, Value.float ⟨0, 1⟩])]),
      ("properties", Value.dict [("google_maps_url",
        Value.str "http://maps.google.com/?q=7.5,8.25")])]) =
      urlStep (pyOr ((alistGet [("geometry", Value.dict [("type", Value.str "Point"),
        ("coordinates", Value.list [Value.float ⟨0, 1⟩, Value.float ⟨0, 1⟩])]),
      ("properties", Value.dict [("google_maps_url",
        Value.str "http://maps.google.com/?q=7.5,8.25")])] "properties").getD Value.noneV)
        (Value.dict [])) ∧
    (extract_lat_lon (Value.dict [("geometry", Value.dict [("type", Value.str "Point"),
        ("coordinates", Value.list [Value.float ⟨0, 1⟩, Value.float ⟨0, 1⟩])]),
      ("properties", Value.dict [("google_maps_url",
        Value.str "http://maps.google.com/?q=7.5,8.25")])]) = Except.ok Option.none ↔
      urlStep (pyOr ((alistGet [("geometry", Value.dict [("type", Value.str "Point"),
        ("coordinates", Value.list [Value.float ⟨0, 1⟩, Value.float ⟨0, 1⟩])]),
      ("properties", Value.dict [("google_maps_url",
        Value.str "http://maps.google.com/?q=7.5,8.25")])] "properties").getD Value.noneV)
        (Value.dict [])) = Except.ok Option.none)) :=
  ⟨rfl,
   c5_zero_placeholder_falls_through
     [("geometry", Value.dict [("type", Value.str "Point"),
        ("coordinates", Value.list [Value.float ⟨0, 1⟩, Value.float ⟨0, 1⟩])]),
      ("properties", Value.dict [("google_maps_url",
        Value.str "http://maps.google.com/?q=7.5,8.25")])]
     [("type", Value.str "Point"),
      ("coordinates", Value.list [Value.float ⟨0, 1⟩, Value.float ⟨0, 1⟩])]
     [] (Value.float ⟨0, 1⟩) (Value.float ⟨0, 1⟩) ⟨0, 1⟩ ⟨0, 1⟩ rfl rfl rfl rfl rfl rfl rfl⟩

/-- Counterexample to claim C6: a truthy non-list `features` value (the
int `5`) survives the `or []` default unchanged, and the pipelines then
raise `TypeError` trying to iterate it — the output is an exception, not
an empty list. -/
theorem c6_truthy_nonlist_features_raises :
    json_to_rows (Value.dict [("features", Value.int 5)]) = Except.error PyErr.typeError ∧
    json_to_entries (Value.dict [("features", Value.int 5)]) = Except.error PyErr.typeError ∧
    json_to_gpx (Value.dict [("features", Value.int 5)]) = Except.error PyErr.typeError :=
  ⟨rfl, rfl, rfl⟩

/-- Claim C6 as amended: when the top-level `features` key is absent or
holds a falsy value, all three pipelines produce the empty output. -/
theorem c6_falsy_features_empty_output (d : List (String × Value))
    (h : alistGet d "features" = Option.none ∨
      truthy ((alistGet d "features").getD Value.noneV) = false) :
    json_to_rows (Value.dict d) = Except.ok [] ∧
    json_to_entries (Value.dict d) = Except.ok [] ∧
    json_to_gpx (Value.dict d) = Except.ok (gpxDocOf []) := by
  have hf : pyOr ((alistGet d "features").getD Value.noneV) (Value.list []) = Value.list [] := by
    cases h with
    | inl h => rw [h]; rfl
    | inr h => simp [pyOr, h]
  refine ⟨?_, ?_, ?_⟩ <;>
    simp only [json_to_rows, json_to_entries, json_to_gpx, Value.get, pyGetDef, hf,
      pyIter, json_to_rows_aux, json_to_entries_aux, json_to_gpx_aux]

/-- Witness for the amended C6 at the empty document. -/
theorem c6_falsy_features_empty_output_witness :
    (alistGet ([] : List (String × Value)) "features" = Option.none) ∧
    (json_to_rows (Value.dict []) = Except.ok [] ∧
     json_to_entries (Value.dict []) = Except.ok [] ∧
     json_to_gpx (Value.dict []) = Except.ok (gpxDocOf [])) :=
  ⟨rfl, c6_falsy_features_empty_output [] (Or.inl rfl)⟩

/-- Claim C7: on every feature the resolved name of the html, gpx and csv
variants equals the spec's ordered fallback chain — `location.name`, then
the URL-derived name, then the `name/Name/title/Title/label/Label` scan,
then the literal `"Saved Place " + ordinal`. -/
theorem c7_name_priority_refinement (f : Value) (i : Nat) :
    extract_name f i = specResolveName f i ∧
    Except.map Prod.fst (extract_name_and_desc f i) = specResolveName f i ∧
    Except.map Prod.fst (extract_name_and_notes f i) = specResolveName f i := by
  refine ⟨?_, ?_, ?_⟩
  · unfold extract_name specResolveName
    cases hp : Value.get f "properties" with
    | error e => rfl
    | ok pv =>
      dsimp only
      cases hl : Value.get (pyOr pv (Value.dict [])) "location" with
      | error e => rfl
      | ok lv => exact resolveName_eq_spec _ _ i
  · unfold extract_name_and_desc specResolveName
    cases hp : Value.get f "properties" with
    | error e => rfl
    | ok pv =>
      dsimp only
      cases hl : Value.get (pyOr pv (Value.dict [])) "location" with
      | error e => rfl
      | ok lv =>
        cases hr : resolveNameFromProps (pyOr pv (Value.dict [])) (pyOr lv (Value.dict [])) i <;>
          simp [← resolveName_eq_spec, hr, Except.map]
  · unfold extract_name_and_notes specResolveName
    cases hp : Value.get f "properties" with
    | error e => rfl
    | ok pv =>
      dsimp only
      cases hl : Value.get (pyOr pv (Value.dict [])) "location" with
      | error e => rfl
      | ok lv =>
        cases hr : resolveNameFromProps (pyOr pv (Value.dict [])) (pyOr lv (Value.dict [])) i <;>
          simp [← resolveName_eq_spec, hr, Except.map]

/-- Counterexample to claim C9: a feature whose URL is `?q=0,0` produces a
row whose latitude and longitude are both exactly zero — the `(0, 0)`
placeholder guard exists only in the geometry branch, and a two-element
tuple is always truthy at `if parsed:`. -/
theorem c9_url_zero_zero_emitted :
    json_to_rows (Value.dict [("features", Value.list [Value.dict [("properties",
        Value.dict [("google_maps_url", Value.str "http://maps.google.com/?q=0,0")])]])]) =
      Except.ok [⟨"Saved Place 1", "0.00000000", "0.00000000",
        Value.str "http://maps.google.com/?q=0,0", ""⟩] :=
  rfl

/-- Claim C9 as amended: geometry-sourced coordinates are never both
within `1e-12` of zero, and a feature lacking resolvable coordinates
contributes no row (the loop skips it while the ordinal still advances);
URL-sourced coordinates, however, may be exactly `(0, 0)`. -/
theorem c9_resolution_invariants :
    (∀ (g : Value) (ll : Dfloat × Dfloat), geoStep g = Except.ok (some ll) →
      ¬(decLt (decAbs ll.1) eps = true ∧ decLt (decAbs ll.2) eps = true)) ∧
    (∀ (i : Nat) (f : Value) (rest : List Value),
      extract_lat_lon f = Except.ok Option.none →
      json_to_rows_aux i (f :: rest) = json_to_rows_aux (i + 1) rest) := by
  constructor
  · intro g ll h
    unfold geoStep at h
    split at h
    · split at h
      · split at h
        · split at h
          · exact absurd h (by simp)
          · split at h
            · exact absurd h (by simp)
            · split at h
              · exact absurd h (by simp)
              · split at h
                · exact absurd h (by simp)
                · rename_i hcond
                  simp only [Except.ok.injEq, Option.some.injEq] at h
                  subst h
                  intro hand
                  exact hcond (by simp [hand.1, hand.2])
        · exact absurd h (by simp)
      · exact absurd h (by simp)
    · exact absurd h (by simp)
  · intro i f rest h
    simp [json_to_rows_aux, h]

/-- Witness for the amended C9: a concrete geometry resolution away from
the origin, and a concrete skipped feature. -/
theorem c9_resolution_invariants_witness :
    ¬(decLt (decAbs ⟨4, 0⟩) eps = true ∧ decLt (decAbs ⟨3, 0⟩) eps = true) ∧
    json_to_rows_aux 1 [Value.dict []] = json_to_rows_aux 2 [] :=
  ⟨c9_resolution_invariants.1 (Value.dict [("type", Value.str "Point"),
      ("coordinates", Value.list [Value.int 3, Value.int 4])]) (⟨4, 0⟩, ⟨3, 0⟩) rfl,
   c9_resolution_invariants.2 1 (Value.dict []) [] rfl⟩

theorem vGetOr2_eq_specAlt (l : List (String × Value)) (k1 k2 : String) :
    vGetOr2 (Value.dict l) k1 k2 = specAltKey l k1 k2 := by
  simp only [vGetOr2, vGetD, pyOr, specAltKey]
  cases alistGet l k1 with
  | none => simp [truthy]
  | some v => cases hv : truthy v <;> simp [hv]

/-- Claim C10: the two-key idioms consult the first spelling and use the
second exactly when the first is absent or falsy — shown for the URL pair
`google_maps_url` / `Google Maps URL` (as read by `urlStep`, the row
builders and the name resolver through `pyGetOr2`) and the comment pair
`Comment` / `comment` (as read by `commentPart` through `vGetOr2`). -/
theorem c10_alt_key_priority (l : List (String × Value)) :
    pyGetOr2 (Value.dict l) "google_maps_url" "Google Maps URL" =
      Except.ok (specAltKey l "google_maps_url" "Google Maps URL") ∧
    vGetOr2 (Value.dict l) "Comment" "comment" = specAltKey l "Comment" "comment" :=
  ⟨by rw [pyGetOr2_dict, vGetOr2_eq_specAlt], vGetOr2_eq_specAlt l "Comment" "comment"⟩

theorem vGetD_dict (l : List (String × Value)) (k : String) :
    vGetD (Value.dict l) k = (alistGet l k).getD Value.noneV := rfl

/-- Counterexample to claim C8: with the stated date and address but also
a map-service URL present, the gpx variant's annotation carries an extra
`Google Maps: <url>` part, so it is not exactly
`"Saved: 2021-05-01 | Address: 1 Main St"`. -/
theorem c8_gpx_url_breaks_exact_equality :
    extract_name_and_desc (Value.dict [("properties", Value.dict [
        ("date", Value.str "2021-05-01"),
        ("location", Value.dict [("address", Value.str "1 Main St")]),
        ("google_maps_url", Value.str "http://example.org/")])]) 1 =
      Except.ok ("Saved Place 1",
        "Saved: 2021-05-01 | Address: 1 Main St | Google Maps: http://example.org/") ∧
    ("Saved: 2021-05-01 | Address: 1 Main St | Google Maps: http://example.org/" ≠
      "Saved: 2021-05-01 | Address: 1 Main St") :=
  ⟨rfl, by decide⟩

/-- Claim C8 as amended: for a feature with `date = "2021-05-01"`,
`location.address = "1 Main St"` and no comment, the csv annotation is
exactly `"Saved: 2021-05-01 | Address: 1 Main St"`; the gpx annotation
equals the same string provided additionally that the feature yields no
`Google Maps:` part (no URL string under either key). -/
theorem c8_date_address_composition (fv p l : List (String × Value)) (i : Nat)
    (hp : alistGet fv "properties" = some (Value.dict p))
    (hd : alistGet p "date" = some (Value.str "2021-05-01"))
    (hl : alistGet p "location" = some (Value.dict l))
    (ha : alistGet l "address" = some (Value.str "1 Main St"))
    (hc1 : truthy ((alistGet p "Comment").getD Value.noneV) = false)
    (hc2 : truthy ((alistGet p "comment").getD Value.noneV) = false) :
    (∀ n s, extract_name_and_notes (Value.dict fv) i = Except.ok (n, s) →
      s = "Saved: 2021-05-01 | Address: 1 Main St") ∧
    (gmapsPart (Value.dict p) = [] →
      ∀ n s, extract_name_and_desc (Value.dict fv) i = Except.ok (n, s) →
        s = "Saved: 2021-05-01 | Address: 1 Main St") := by
  have hpne : p ≠ [] := alistGet_ne_nil p "date" _ hd
  have hlne : l ≠ [] := alistGet_ne_nil l "address" _ ha
  have hdate : datePart (Value.dict p) = ["Saved: 2021-05-01"] := by
    simp only [datePart, vGetD_dict, hd, Option.getD_some]
    rfl
  have haddr : addressPart (Value.dict l) = ["Address: 1 Main St"] := by
    simp only [addressPart, ha, Option.getD_some]
    rfl
  have hcomm : commentPart (Value.dict p) = [] := by
    simp only [commentPart, vGetOr2, vGetD_dict, pyOr, hc1, Bool.false_eq_true, if_false, hc2]
  have hnotes : notesOfProps (Value.dict p) (Value.dict l) =
      "Saved: 2021-05-01 | Address: 1 Main St" := by
    simp only [notesOfProps, hdate, haddr, hcomm]
    rfl
  constructor
  · intro n s h
    unfold extract_name_and_notes at h
    simp only [Value.get, pyGetDef, hp, Option.getD_some] at h
    rw [pyOr_dict_ne_nil p _ hpne] at h
    simp only [Value.get, pyGetDef, hl, Option.getD_some] at h
    rw [pyOr_dict_ne_nil l _ hlne] at h
    cases hr : resolveNameFromProps (Value.dict p) (Value.dict l) i with
    | error e => rw [hr] at h; exact absurd h (by simp)
    | ok nm =>
      rw [hr] at h
      simp only [Except.ok.injEq, Prod.mk.injEq] at h
      rw [← h.2, hnotes]
  · intro hg0 n s h
    have hdesc : descOfProps (Value.dict p) (Value.dict l) =
        "Saved: 2021-05-01 | Address: 1 Main St" := by
      simp only [descOfProps, hdate, haddr, hg0, hcomm]
      rfl
    unfold extract_name_and_desc at h
    simp only [Value.get, pyGetDef, hp, Option.getD_some] at h
    rw [pyOr_dict_ne_nil p _ hpne] at h
    simp only [Value.get, pyGetDef, hl, Option.getD_some] at h
    rw [pyOr_dict_ne_nil l _ hlne] at h
    cases hr : resolveNameFromProps (Value.dict p) (Value.dict l) i with
    | error e => rw [hr] at h; exact absurd h (by simp)
    | ok nm =>
      rw [hr] at h
      simp only [Except.ok.injEq, Prod.mk.injEq] at h
      rw [← h.2, hdesc]

/-- Witness for the amended C8 at a concrete feature with only the date
and the address set. -/
theorem c8_date_address_composition_witness :
    alistGet [("date", Value.str "2021-05-01"),
        ("location", Value.dict [("address", Value.str "1 Main St")])] "date" =
      some (Value.str "2021-05-01") ∧
    ((∀ n s, extract_name_and_notes (Value.dict [("properties", Value.dict [
          ("date", Value.str "2021-05-01"),
          ("location", Value.dict [("address", Value.str "1 Main St")])])]) 1 =
        Except.ok (n, s) → s = "Saved: 2021-05-01 | Address: 1 Main St") ∧
     (gmapsPart (Value.dict [("date", Value.str "2021-05-01"),
          ("location", Value.dict [("address", Value.str "1 Main St")])]) = [] →
      ∀ n s, extract_name_and_desc (Value.dict [("properties", Value.dict [
          ("date", Value.str "2021-05-01"),
          ("location", Value.dict [("address", Value.str "1 Main St")])])]) 1 =
        Except.ok (n, s) → s = "Saved: 2021-05-01 | Address: 1 Main St")) :=
  ⟨rfl, c8_date_address_composition
    [("properties", Value.dict [("date", Value.str "2021-05-01"),
        ("location", Value.dict [("address", Value.str "1 Main St")])])]
    [("date", Value.str "2021-05-01"),
     ("location", Value.dict [("address", Value.str "1 Main St")])]
    [("address", Value.str "1 Main St")] 1 rfl rfl rfl rfl rfl rfl⟩

/-- Counterexample to claim C1: for a feature holding a map-service URL,
the csv variant's annotation does NOT include a `Google Maps: <url>`
part — its notes are empty here while the gpx description carries the
part; the csv variant, like the html one, exposes the URL as a separate
output field instead. -/
theorem c1_csv_includes_gmaps_refuted :
    extract_name_and_notes (Value.dict [("properties",
      Value.dict [("google_maps_url", Value.str "http://example.com/")])]) 1 =
      Except.ok ("Saved Place 1", "") ∧
    extract_name_and_desc (Value.dict [("properties",
      Value.dict [("google_maps_url", Value.str "http://example.com/")])]) 1 =
      Except.ok ("Saved Place 1", "Google Maps: http://example.com/") ∧
    ("" : String) ≠ "Google Maps: http://example.com/" :=
  ⟨rfl, rfl, by decide⟩

/-- Claim C1 as amended: when the two-key URL lookup yields a string, only
the gpx annotation gains the `Google Maps: <url>` part; the csv
annotation is composed of the date, address and comment parts alone, and
the csv `url` column and the html `gmaps_url` field carry the URL as a
separate output field. -/
theorem c1_gmaps_part_gpx_only (p : List (String × Value)) (loc : Value) (url : String)
    (i : Nat)
    (hu : vGetOr2 (Value.dict p) "google_maps_url" "Google Maps URL" = Value.str url)
    (hne : url ≠ "") :
    descOfProps (Value.dict p) loc =
      joinSep " | " (datePart (Value.dict p) ++ addressPart loc ++
        ("Google Maps: " ++ url) :: commentPart (Value.dict p)) ∧
    notesOfProps (Value.dict p) loc =
      joinSep " | " (datePart (Value.dict p) ++ addressPart loc ++
        commentPart (Value.dict p)) ∧
    (∀ lat lon row, csvRowOf (Value.dict [("properties", Value.dict p)]) i lat lon =
      Except.ok row → row.url = Value.str url) ∧
    (∀ lat lon entry, htmlEntryOf (Value.dict [("properties", Value.dict p)]) i lat lon =
      Except.ok entry → entry.gmaps_url = Value.str url) := by
  have hpne : p ≠ [] := by
    intro he
    rw [he] at hu
    exact Value.noConfusion hu
  have hie := isEmpty_false_of_ne url hne
  have hor : pyOr (Value.str url) (Value.str "") = Value.str url := by
    simp [pyOr, truthy, hie]
  refine ⟨?_, rfl, ?_, ?_⟩
  · simp only [descOfProps, gmapsPart, hu]
    simp [List.append_assoc]
  · intro lat lon row h
    unfold csvRowOf at h
    simp only [Value.get, pyGetDef, alistGet, ite_true, Option.getD_some] at h
    rw [pyOr_dict_ne_nil p _ hpne, pyGetOr2_dict, hu] at h
    simp only [hor] at h
    cases he2 : extract_name_and_notes (Value.dict [("properties", Value.dict p)]) i with
    | error e => rw [he2] at h; exact absurd h (by simp)
    | ok nn =>
      rw [he2] at h
      simp only [Except.ok.injEq] at h
      rw [← h]
  · intro lat lon entry h
    unfold htmlEntryOf at h
    cases hn : extract_name (Value.dict [("properties", Value.dict p)]) i with
    | error e => rw [hn] at h; exact absurd h (by simp)
    | ok name =>
      rw [hn] at h
      simp only [Value.get, pyGetDef, alistGet, ite_true, Option.getD_some] at h
      rw [pyOr_dict_ne_nil p _ hpne, pyGetOr2_dict, hu] at h
      simp only [hor] at h
      simp only [Except.ok.injEq] at h
      rw [← h]

/-- Witness for the amended C1 at a concrete property dict holding one URL. -/
theorem c1_gmaps_part_gpx_only_witness :
    vGetOr2 (Value.dict [("google_maps_url", Value.str "http://x/?q=A")])
        "google_maps_url" "Google Maps URL" = Value.str "http://x/?q=A" ∧
    (descOfProps (Value.dict [("google_maps_url", Value.str "http://x/?q=A")])
        (Value.dict []) =
      joinSep " | " (datePart (Value.dict [("google_maps_url", Value.str "http://x/?q=A")]) ++
        addressPart (Value.dict []) ++
        ("Google Maps: " ++ "http://x/?q=A") ::
          commentPart (Value.dict [("google_maps_url", Value.str "http://x/?q=A")])) ∧
     notesOfProps (Value.dict [("google_maps_url", Value.str "http://x/?q=A")])
        (Value.dict []) =
      joinSep " | " (datePart (Value.dict [("google_maps_url", Value.str "http://x/?q=A")]) ++
        addressPart (Value.dict []) ++
        commentPart (Value.dict [("google_maps_url", Value.str "http://x/?q=A")])) ∧
     (∀ lat lon row, csvRowOf (Value.dict [("properties",
          Value.dict [("google_maps_url", Value.str "http://x/?q=A")])]) 1 lat lon =
        Except.ok row → row.url = Value.str "http://x/?q=A") ∧
     (∀ lat lon entry, htmlEntryOf (Value.dict [("properties",
          Value.dict [("google_maps_url", Value.str "http://x/?q=A")])]) 1 lat lon =
        Except.ok entry → entry.gmaps_url = Value.str "http://x/?q=A")) :=
  ⟨rfl, c1_gmaps_part_gpx_only [("google_maps_url", Value.str "http://x/?q=A")]
    (Value.dict []) "http://x/?q=A" 1 rfl (by decide)⟩
